import Mathlib

/-!
Shallow embedding of the iot-printer backend (src/db.py, src/backend.py).

The two scheduled handlers (`prepare_gdrive_download_task`, `print_file_task`
in src/db.py) and the submission endpoint (`add_task` in src/backend.py) are
modelled as pure functions from an explicit environment (clock reading,
filesystem contents, remote-storage behaviour, print-sink behaviour) to a
result record that tracks the final task record, every database commit, every
notification sent, every scheduler job registered or cancelled, and every file
removed.  Wall-clock instants are epoch seconds as `Int`.
-/

namespace IotPrinter

/-- StorageType enum from src/db.py (LOCAL = "local", GDRIVE = "gdrive"). -/
inductive StorageType where
  | LOCAL
  | GDRIVE
  deriving DecidableEq, Repr

/-- TaskStatus enum from src/db.py. -/
inductive TaskStatus where
  | PENDING
  | SCHEDULED
  | DOWNLOADING
  | PRINTING
  | COMPLETED
  | FAILED
  deriving DecidableEq, Repr

/-- The Task row of src/db.py (table "tasks").  `time_to_print` and
`created_at` are epoch seconds. -/
structure Task where
  id : Nat
  original_filename : String
  uploader_email : String
  storage_type : StorageType
  file_identifier : String
  gdrive_download_path : Option String
  time_to_print : Int
  color_mode : String
  page_size : String
  status : TaskStatus
  created_at : Int
  error_message : Option String
  deriving DecidableEq, Repr

/-! ### print_file_task (src/db.py lines 117-226) -/

/-- Environment of one `print_file_task` run: the printer name argument
(`""` models Python falsy None/empty), the filesystem, and the behaviour of
the `subprocess.run(["lp", ...])` call (`lpRaises` models the except branch,
otherwise the return code and captured streams), and whether `os.remove` of
the staged copy raises. -/
structure PrintEnv where
  printerName : String
  fileExists : String → Bool
  lpRaises : Bool
  lpError : String
  lpReturncode : Int
  lpStderr : String
  lpStdout : String
  removeFails : Bool

/-- Observable outcome of one `print_file_task` run on a found task:
the task record as last committed (or unchanged if never committed),
whether the print sink (`lp`) was invoked, the sequence of `db.commit()`
snapshots of the record, and the files deleted from local disk. -/
structure PrintResult where
  task : Task
  sinkInvoked : Bool
  commits : List Task
  removedFiles : List String
  deriving DecidableEq, Repr

/-- The error_message set by the DOWNLOADING guard (src/db.py line 134). -/
def downloadingErrorMsg : String :=
  "Print task ran while file was still in downloading state or download failed to update status."

/-- The error_message set when the printer name argument is empty
(src/db.py line 142). -/
def noPrinterMsg : String :=
  "Printer name not configured (passed as empty)."

/-- Python str() of an optional path, used in the f-string of
src/db.py line 157. -/
def optPathStr : Option String → String
  | none => "None"
  | some p => p

/-- The error_message of src/db.py line 157 (GDrive file not found locally).
Quote characters of the original f-string are elided. -/
def gdriveMissingMsg (task : Task) : String :=
  "GDrive file " ++ task.original_filename ++ " (ID: " ++ task.file_identifier ++
    ") not found locally at expected path " ++ optPathStr task.gdrive_download_path ++
    ". Download may have failed or path is incorrect."

/-- The error_message of src/db.py line 175 (file missing at print time). -/
def fileNotFoundMsg (path : String) (id : Nat) : String :=
  "File not found at " ++ path ++ " for task " ++ toString id ++ "."

/-- error_message on sink failure: `process.stderr or process.stdout or
"Unknown printing error"` (src/db.py line 208), i.e. first non-empty. -/
def sinkErrText (env : PrintEnv) : String :=
  if env.lpStderr ≠ "" then env.lpStderr
  else if env.lpStdout ≠ "" then env.lpStdout
  else "Unknown printing error"

/-- src/db.py lines 174-226: the part of `print_file_task` after the file to
print has been resolved to `path` (with `is_gdrive` recording whether it is
the staged GDrive copy): the final existence check, the PRINTING commit, the
`lp` invocation with its three outcomes, and the `finally` cleanup that
deletes a staged copy and clears `gdrive_download_path`. -/
def printResolved (env : PrintEnv) (task : Task) (path : String)
    (is_gdrive : Bool) : PrintResult :=
  if env.fileExists path = false then
    let t : Task := { task with
                      status := TaskStatus.FAILED
                      error_message := some (fileNotFoundMsg path task.id) }
    ⟨t, false, [t], []⟩
  else
    let t1 : Task := { task with status := TaskStatus.PRINTING }
    let t2 : Task :=
      if env.lpRaises then
        { t1 with status := TaskStatus.FAILED
                  error_message := some env.lpError }
      else if env.lpReturncode = 0 then
        { t1 with status := TaskStatus.COMPLETED }
      else
        { t1 with status := TaskStatus.FAILED
                  error_message := some (sinkErrText env) }
    if is_gdrive && env.fileExists path && !env.removeFails then
      let t3 : Task := { t2 with gdrive_download_path := none }
      ⟨t3, true, [t1, t2, t3], [path]⟩
    else
      ⟨t2, true, [t1, t2], []⟩

/-- src/db.py lines 117-226, `print_file_task`, for a task that exists in the
store (the task-missing branch touches nothing and is omitted): the FAILED
guard, the DOWNLOADING guard, the printer-name guard, and the resolution of
the file to print by storage type. -/
def print_file_task (env : PrintEnv) (task : Task) : PrintResult :=
  if task.status = TaskStatus.FAILED then
    ⟨task, false, [], []⟩
  else if task.status = TaskStatus.DOWNLOADING then
    let t : Task := { task with
                      status := TaskStatus.FAILED
                      error_message := some downloadingErrorMsg }
    ⟨t, false, [t], []⟩
  else if env.printerName = "" then
    let t : Task := { task with
                      status := TaskStatus.FAILED
                      error_message := some noPrinterMsg }
    ⟨t, false, [t], []⟩
  else
    match task.storage_type with
    | StorageType.GDRIVE =>
      match task.gdrive_download_path with
      | some p =>
        if p ≠ "" ∧ env.fileExists p = true then
          printResolved env task p true
        else
          let t : Task := { task with
                            status := TaskStatus.FAILED
                            error_message := some (gdriveMissingMsg task) }
          ⟨t, false, [t], []⟩
      | none =>
        let t : Task := { task with
                          status := TaskStatus.FAILED
                          error_message := some (gdriveMissingMsg task) }
        ⟨t, false, [t], []⟩
    | StorageType.LOCAL =>
      printResolved env task task.file_identifier false

/-! ### prepare_gdrive_download_task (src/db.py lines 64-115) -/

/-- Environment of one `prepare_gdrive_download_task` run: the
`gdrive_download_full_path_val` argument, whether `download_from_gdrive`
raises (with the exception text), and whether the scheduler still holds the
print job for this task (`remove_job` raises `JobLookupError` otherwise). -/
structure DownloadEnv where
  downloadDir : String
  downloadFails : Bool
  downloadError : String
  printJobExists : Bool

/-- Observable outcome of one `prepare_gdrive_download_task` run on a found
task: final record, `db.commit()` snapshots, emails sent as
(to, subject, body) triples, scheduler job ids removed, and whether the
download was attempted at all. -/
structure DownloadResult where
  task : Task
  commits : List Task
  emails : List (String × String × String)
  cancelled : List String
  downloadAttempted : Bool
  deriving DecidableEq, Repr

/-- Body of the failure email of src/db.py lines 101-105 (quote characters
of the original f-string are elided). -/
def downloadFailBody (task : Task) (err : String) : String :=
  "Hello,\n\nThe file " ++ task.original_filename ++
    " scheduled for printing could not be downloaded from Google Drive.\nError: " ++
    err ++ "\n\nYou may need to print this file manually.\nTask ID: " ++ toString task.id

/-- src/db.py lines 64-115, `prepare_gdrive_download_task`, for a task that
exists in the store: the FAILED guard, the non-GDrive guard, the DOWNLOADING
commit, then either the successful staging (set `gdrive_download_path`, back
to SCHEDULED) or the failure path (FAILED + error_message, failure email to
the uploader, best-effort removal of the pending print job), with the
`finally` commit in both cases. -/
def prepare_gdrive_download_task (env : DownloadEnv) (task : Task) : DownloadResult :=
  if task.status = TaskStatus.FAILED then
    ⟨task, [], [], [], false⟩
  else if task.storage_type ≠ StorageType.GDRIVE then
    ⟨task, [], [], [], false⟩
  else
    let t1 : Task := { task with status := TaskStatus.DOWNLOADING }
    let dest := env.downloadDir ++ "/task_" ++ toString task.id ++ "_" ++ task.original_filename
    if env.downloadFails = false then
      let t2 : Task := { t1 with
                         gdrive_download_path := some dest
                         status := TaskStatus.SCHEDULED }
      ⟨t2, [t1, t2], [], [], true⟩
    else
      let t2 : Task := { t1 with
                         status := TaskStatus.FAILED
                         error_message := some env.downloadError }
      let subject := "Print Task Failed: " ++ task.original_filename
      let cancelled := if env.printJobExists then ["print_task_" ++ toString task.id] else []
      ⟨t2, [t1, t2],
        [(task.uploader_email, subject, downloadFailBody task env.downloadError)],
        cancelled, true⟩

/-! ### add_task (src/backend.py lines 70-183) and list_tasks (lines 193-197) -/

/-- MAX_FILE_SIZE_BYTES = 5 * 1024 * 1024 (src/backend.py lines 26-27). -/
def MAX_FILE_SIZE_BYTES : Nat := 5 * 1024 * 1024

/-- Environment of one `add_task` request.  `now` is the value read from the
clock during this request; `importTime` is the value `datetime.now(timezone.utc)`
had when src/db.py was imported — it is the Column default of `created_at`,
evaluated once at class-definition time (src/db.py line 50), not per insert.
`tsParseOk` models whether `datetime.fromtimestamp` succeeds on the given
timestamp; `tempPath` and `localPath` are the staging and permanent local
paths the request would use; `newTaskId` the id the store assigns. -/
structure AddEnv where
  now : Int
  importTime : Int
  gdriveAvailable : Bool
  uploadFails : Bool
  gdriveFileId : String
  tsParseOk : Bool
  newTaskId : Nat
  tempPath : String
  localPath : String

/-- Form fields of one `add_task` request plus the uploaded file size. -/
structure AddInput where
  filename : String
  time_to_print_ts : Int
  color_mode : String
  page_size : String
  uploader_email : String
  fileSize : Nat

/-- Kind of a scheduler job registered by `add_task`. -/
inductive JobKind where
  | downloadJob
  | printJob
  deriving DecidableEq, Repr

/-- One `scheduler.add_job` registration: stable id, run date, kind. -/
structure SchedJob where
  jobId : String
  runDate : Int
  kind : JobKind
  deriving DecidableEq, Repr

/-- Observable outcome of one `add_task` request: the HTTP response (error
status code and detail, or the new task id), the local files present after
the request, the remote-storage objects present after the request, the task
record created (if any), and scheduler registrations in order. -/
structure AddResult where
  response : Except (Nat × String) Nat
  localFiles : List String
  remoteObjects : List String
  createdTask : Option Task
  jobs : List SchedJob
  deriving Repr

/-- HTTP 400 detail of src/backend.py line 80 (quotes elided). -/
def badColorMsg : String := "Invalid color_mode. Must be color or bw."

/-- HTTP 400 detail of src/backend.py line 82. -/
def noEmailMsg : String := "uploader_email is required."

/-- HTTP 500 detail of src/backend.py line 102. -/
def gdriveUnavailableMsg : String :=
  "File is large, but Google Drive is not configured/available for upload."

/-- HTTP 500 detail of src/backend.py line 113 (prefix of the f-string). -/
def uploadFailedMsg : String := "Google Drive upload failed"

/-- HTTP 400 detail of src/backend.py line 126. -/
def invalidTsMsg : String := "Invalid time_to_print_ts. Must be a valid Unix timestamp."

/-- HTTP 400 detail of src/backend.py line 131. -/
def tooNearMsg : String := "time_to_print must be in the future (at least 1 minute ahead)."

/-- src/backend.py lines 121-183: the part of `add_task` after storage has
been resolved to `st`/`ident` and the temp file disposed of (`locals` and
`remotes` are the files/objects present at that point).  Timestamp parse
check, the 1-minute future check (both removing a LOCAL file on rejection),
creation of the task row (status SCHEDULED, `created_at` from the import-time
column default), and the scheduler registrations: for GDrive a download job
at `time_to_print − 10min` clamped to `now + 5s` when not in the future,
then always the print job at `time_to_print`. -/
def addTaskScheduling (env : AddEnv) (inp : AddInput) (st : StorageType)
    (ident : String) (locals : List String) (remotes : List String) : AddResult :=
  if env.tsParseOk = false then
    ⟨Except.error (400, invalidTsMsg),
      if st = StorageType.LOCAL then locals.filter (fun p => p != ident) else locals,
      remotes, none, []⟩
  else if inp.time_to_print_ts ≤ env.now + 60 then
    ⟨Except.error (400, tooNearMsg),
      if st = StorageType.LOCAL then locals.filter (fun p => p != ident) else locals,
      remotes, none, []⟩
  else
    let task : Task :=
      { id := env.newTaskId
        original_filename := inp.filename
        uploader_email := inp.uploader_email
        storage_type := st
        file_identifier := ident
        gdrive_download_path := none
        time_to_print := inp.time_to_print_ts
        color_mode := inp.color_mode
        page_size := inp.page_size
        status := TaskStatus.SCHEDULED
        created_at := env.importTime
        error_message := none }
    let printJobRec : SchedJob :=
      ⟨"print_task_" ++ toString env.newTaskId, inp.time_to_print_ts, JobKind.printJob⟩
    let jobs : List SchedJob :=
      if st = StorageType.GDRIVE then
        let download_time := inp.time_to_print_ts - 600
        let download_time := if download_time ≤ env.now then env.now + 5 else download_time
        [⟨"download_task_" ++ toString env.newTaskId, download_time, JobKind.downloadJob⟩,
          printJobRec]
      else
        [printJobRec]
    ⟨Except.ok env.newTaskId, locals, remotes, some task, jobs⟩

/-- src/backend.py lines 70-183, the `add_task` endpoint: color-mode and
uploader-email validation, staging of the upload to `tempPath`, the size
threshold decision (over threshold: require GDrive, upload, drop the temp
copy; at or under: move the temp copy to permanent local storage), then the
timestamp checks and scheduling of `addTaskScheduling`. -/
def add_task (env : AddEnv) (inp : AddInput) : AddResult :=
  if ¬(inp.color_mode = "color" ∨ inp.color_mode = "bw") then
    ⟨Except.error (400, badColorMsg), [], [], none, []⟩
  else if inp.uploader_email = "" then
    ⟨Except.error (400, noEmailMsg), [], [], none, []⟩
  else
    if inp.fileSize > MAX_FILE_SIZE_BYTES then
      if env.gdriveAvailable = false then
        ⟨Except.error (500, gdriveUnavailableMsg), [], [], none, []⟩
      else if env.uploadFails then
        ⟨Except.error (500, uploadFailedMsg), [], [], none, []⟩
      else
        addTaskScheduling env inp StorageType.GDRIVE env.gdriveFileId [] [env.gdriveFileId]
    else
      addTaskScheduling env inp StorageType.LOCAL env.localPath [env.localPath] []

/-- Stable insertion of a task into a list sorted by `created_at` descending:
an earlier-inserted row stays ahead of later rows with an equal key, matching
the rowid order the SQLite query returns for ties. -/
def insertByCreatedDesc (t : Task) : List Task → List Task
  | [] => [t]
  | u :: us =>
    if t.created_at ≥ u.created_at then t :: u :: us
    else u :: insertByCreatedDesc t us

/-- Stable sort by `created_at` descending over the store in insertion
order. -/
def sortByCreatedDesc : List Task → List Task
  | [] => []
  | t :: ts => insertByCreatedDesc t (sortByCreatedDesc ts)

/-- src/backend.py lines 193-197, the `list_tasks` endpoint:
`order_by(created_at.desc()).offset(skip).limit(limit)` over the store
(given here in insertion order). -/
def list_tasks (skip limit : Nat) (tasks : List Task) : List Task :=
  ((sortByCreatedDesc tasks).drop skip).take limit

/-! ### Claim C1 -/

def c1Env : PrintEnv :=
  { printerName := "hp", fileExists := fun _ => true, lpRaises := false, lpError := "",
    lpReturncode := 1, lpStderr := "paper jam", lpStdout := "", removeFails := false }

def c1Task : Task :=
  { id := 1, original_filename := "a.pdf", uploader_email := "u@example.com",
    storage_type := StorageType.LOCAL, file_identifier := "uploads/a.pdf",
    gdrive_download_path := none, time_to_print := 100, color_mode := "bw",
    page_size := "A4", status := TaskStatus.COMPLETED, created_at := 0,
    error_message := none }

/-- C1 counterexample: `print_file_task` has no guard for COMPLETED tasks.
On a COMPLETED LOCAL task with its file present and the printer configured,
the handler re-invokes the print sink, and (here, with the sink failing) even
mutates the record from COMPLETED to FAILED — so re-running the print handler
on an already-COMPLETED task is not a no-op. -/
theorem C1_counterexample :
    c1Task.status = TaskStatus.COMPLETED ∧
    (print_file_task c1Env c1Task).sinkInvoked = true ∧
    (print_file_task c1Env c1Task).task.status = TaskStatus.FAILED :=
  ⟨rfl, rfl, rfl⟩

/-- C1 (amended): for every task whose status is already FAILED, invoking the
print handler is a no-op — the print sink is not invoked, nothing is
committed, no file is removed and the record is unchanged, because the FAILED
guard precedes any side effect.  (The code has no such guard for COMPLETED
tasks.) -/
theorem C1_failed_noop (env : PrintEnv) (task : Task)
    (h : task.status = TaskStatus.FAILED) :
    print_file_task env task = ⟨task, false, [], []⟩ := by
  simp [print_file_task, h]

def c1wTask : Task :=
  { c1Task with status := TaskStatus.FAILED, error_message := some "earlier failure" }

/-- C1 witness: the amended no-op theorem at a concrete FAILED task. -/
theorem C1_failed_noop_witness :
    print_file_task c1Env c1wTask = ⟨c1wTask, false, [], []⟩ :=
  C1_failed_noop c1Env c1wTask rfl

/-! ### Claim C2 -/

/-- C2: a FAILED task is never resurrected — both the download handler and
the print handler return at their FAILED guard with the record unchanged, no
commit, no email, no cancellation, no download attempt, no sink invocation
and no file removal. -/
theorem C2_failed_never_resurrected (denv : DownloadEnv) (penv : PrintEnv)
    (task : Task) (h : task.status = TaskStatus.FAILED) :
    prepare_gdrive_download_task denv task = ⟨task, [], [], [], false⟩ ∧
    print_file_task penv task = ⟨task, false, [], []⟩ := by
  constructor
  · simp [prepare_gdrive_download_task, h]
  · simp [print_file_task, h]

def c2DEnv : DownloadEnv :=
  { downloadDir := "uploads/gdrive_downloads", downloadFails := false,
    downloadError := "", printJobExists := true }

def c2PEnv : PrintEnv :=
  { printerName := "hp", fileExists := fun _ => true, lpRaises := false, lpError := "",
    lpReturncode := 0, lpStderr := "", lpStdout := "", removeFails := false }

def c2Task : Task :=
  { id := 2, original_filename := "b.pdf", uploader_email := "u@example.com",
    storage_type := StorageType.GDRIVE, file_identifier := "gid2",
    gdrive_download_path := none, time_to_print := 100, color_mode := "bw",
    page_size := "A4", status := TaskStatus.FAILED, created_at := 0,
    error_message := some "download failed earlier" }

/-- C2 witness: both handlers leave a concrete FAILED GDrive task untouched. -/
theorem C2_failed_never_resurrected_witness :
    prepare_gdrive_download_task c2DEnv c2Task = ⟨c2Task, [], [], [], false⟩ ∧
    print_file_task c2PEnv c2Task = ⟨c2Task, false, [], []⟩ :=
  C2_failed_never_resurrected c2DEnv c2PEnv c2Task rfl

/-! ### Claim C3 -/

/-- C3: if the print handler fires while the task is still DOWNLOADING, it
sets status FAILED with the incomplete-download error message, commits that
single mutation, removes no file, and the print sink is never invoked. -/
theorem C3_downloading_at_print_time (env : PrintEnv) (task : Task)
    (h : task.status = TaskStatus.DOWNLOADING) :
    print_file_task env task =
      ⟨{ task with status := TaskStatus.FAILED, error_message := some downloadingErrorMsg },
        false,
        [{ task with status := TaskStatus.FAILED, error_message := some downloadingErrorMsg }],
        []⟩ := by
  simp [print_file_task, h]

def c3Env : PrintEnv :=
  { printerName := "hp", fileExists := fun _ => true, lpRaises := false, lpError := "",
    lpReturncode := 0, lpStderr := "", lpStdout := "", removeFails := false }

def c3Task : Task :=
  { id := 3, original_filename := "c.pdf", uploader_email := "u@example.com",
    storage_type := StorageType.GDRIVE, file_identifier := "gid3",
    gdrive_download_path := none, time_to_print := 100, color_mode := "color",
    page_size := "A4", status := TaskStatus.DOWNLOADING, created_at := 0,
    error_message := none }

/-- C3 witness: the DOWNLOADING-at-print-time theorem at a concrete task. -/
theorem C3_downloading_at_print_time_witness :
    print_file_task c3Env c3Task =
      ⟨{ c3Task with status := TaskStatus.FAILED, error_message := some downloadingErrorMsg },
        false,
        [{ c3Task with status := TaskStatus.FAILED, error_message := some downloadingErrorMsg }],
        []⟩ :=
  C3_downloading_at_print_time c3Env c3Task rfl

/-! ### Claim C4 -/

/-- C4: when the remote fetch of the download handler fails on a
not-yet-FAILED GDrive task, the handler sets status FAILED with the
underlying cause as error_message, sends exactly one notification to the
uploader contact, removes the pending print job exactly when the scheduler
still holds it (tolerating absence), and commits the DOWNLOADING and FAILED
records either way — the commits do not depend on whether the cancellation
found the job. -/
theorem C4_download_failure_path (env : DownloadEnv) (task : Task)
    (h1 : task.status ≠ TaskStatus.FAILED)
    (h2 : task.storage_type = StorageType.GDRIVE)
    (h3 : env.downloadFails = true) :
    (prepare_gdrive_download_task env task).task.status = TaskStatus.FAILED ∧
    (prepare_gdrive_download_task env task).task.error_message = some env.downloadError ∧
    (prepare_gdrive_download_task env task).emails =
      [(task.uploader_email, "Print Task Failed: " ++ task.original_filename,
        downloadFailBody task env.downloadError)] ∧
    (prepare_gdrive_download_task env task).cancelled =
      (if env.printJobExists then ["print_task_" ++ toString task.id] else []) ∧
    (prepare_gdrive_download_task env task).commits =
      [{ task with status := TaskStatus.DOWNLOADING },
       { task with status := TaskStatus.FAILED, error_message := some env.downloadError }] := by
  refine ⟨?_, ?_, ?_, ?_, ?_⟩ <;> simp [prepare_gdrive_download_task, h1, h2, h3]

def c4Env : DownloadEnv :=
  { downloadDir := "uploads/gdrive_downloads", downloadFails := true,
    downloadError := "HttpError 404", printJobExists := false }

def c4Task : Task :=
  { id := 7, original_filename := "big.pdf", uploader_email := "bob@example.com",
    storage_type := StorageType.GDRIVE, file_identifier := "gid7",
    gdrive_download_path := none, time_to_print := 100, color_mode := "bw",
    page_size := "A4", status := TaskStatus.SCHEDULED, created_at := 0,
    error_message := none }

/-- C4 witness: the failure path at a concrete task, with the print job
already absent from the scheduler (cancellation fails, mutations still
committed). -/
theorem C4_download_failure_path_witness :
    (prepare_gdrive_download_task c4Env c4Task).task.status = TaskStatus.FAILED ∧
    (prepare_gdrive_download_task c4Env c4Task).task.error_message = some c4Env.downloadError ∧
    (prepare_gdrive_download_task c4Env c4Task).emails =
      [(c4Task.uploader_email, "Print Task Failed: " ++ c4Task.original_filename,
        downloadFailBody c4Task c4Env.downloadError)] ∧
    (prepare_gdrive_download_task c4Env c4Task).cancelled =
      (if c4Env.printJobExists then ["print_task_" ++ toString c4Task.id] else []) ∧
    (prepare_gdrive_download_task c4Env c4Task).commits =
      [{ c4Task with status := TaskStatus.DOWNLOADING },
       { c4Task with status := TaskStatus.FAILED, error_message := some c4Env.downloadError }] :=
  C4_download_failure_path c4Env c4Task (by decide) rfl rfl

/-! ### Claim C8 -/

/-- In the joined tail of the print handler, a file resolved as a LOCAL
(non-staged) file is never removed, on any path. -/
theorem printResolved_local_no_removal (env : PrintEnv) (task : Task) (path : String) :
    (printResolved env task path false).removedFiles = [] := by
  unfold printResolved
  split
  · rfl
  · simp

/-- C8: if the print handler resolved the file to a staged GDrive copy (path
`p`, non-empty and present, with the guards passed and `os.remove`
functional), then whatever the sink does — raise, succeed, or fail — the
staged copy is deleted and `gdrive_download_path` is cleared; and the handler
never removes any file of a LOCAL task. -/
theorem C8_staged_cleanup (env : PrintEnv) (task : Task) (p : String)
    (env2 : PrintEnv) (task2 : Task)
    (h1 : task.storage_type = StorageType.GDRIVE)
    (h2 : task.status ≠ TaskStatus.FAILED)
    (h3 : task.status ≠ TaskStatus.DOWNLOADING)
    (h4 : env.printerName ≠ "")
    (h5 : task.gdrive_download_path = some p)
    (h6 : p ≠ "")
    (h7 : env.fileExists p = true)
    (h8 : env.removeFails = false)
    (hL : task2.storage_type = StorageType.LOCAL) :
    ((print_file_task env task).removedFiles = [p] ∧
      (print_file_task env task).task.gdrive_download_path = none) ∧
    (print_file_task env2 task2).removedFiles = [] := by
  constructor
  · constructor <;>
      simp [print_file_task, printResolved, h1, h2, h3, h4, h5, h6, h7, h8]
  · by_cases hf : task2.status = TaskStatus.FAILED
    · simp [print_file_task, hf]
    · by_cases hd : task2.status = TaskStatus.DOWNLOADING
      · simp [print_file_task, hf, hd]
      · by_cases hpn : env2.printerName = ""
        · simp [print_file_task, hf, hd, hpn]
        · simp [print_file_task, hf, hd, hpn, hL, printResolved_local_no_removal]

def c8Env : PrintEnv :=
  { printerName := "hp", fileExists := fun _ => true, lpRaises := false, lpError := "",
    lpReturncode := 0, lpStderr := "", lpStdout := "", removeFails := false }

def c8Task : Task :=
  { id := 9, original_filename := "big.pdf", uploader_email := "u@example.com",
    storage_type := StorageType.GDRIVE, file_identifier := "gid9",
    gdrive_download_path := some "uploads/gdrive_downloads/task_9_big.pdf",
    time_to_print := 100, color_mode := "bw", page_size := "A4",
    status := TaskStatus.SCHEDULED, created_at := 0, error_message := none }

def c8LocalTask : Task :=
  { id := 10, original_filename := "small.pdf", uploader_email := "u@example.com",
    storage_type := StorageType.LOCAL, file_identifier := "uploads/small.pdf",
    gdrive_download_path := none, time_to_print := 100, color_mode := "bw",
    page_size := "A4", status := TaskStatus.SCHEDULED, created_at := 0,
    error_message := none }

/-- C8 witness: cleanup at a concrete staged GDrive task (sink succeeds) and
no removal for a concrete LOCAL task. -/
theorem C8_staged_cleanup_witness :
    ((print_file_task c8Env c8Task).removedFiles =
        ["uploads/gdrive_downloads/task_9_big.pdf"] ∧
      (print_file_task c8Env c8Task).task.gdrive_download_path = none) ∧
    (print_file_task c8Env c8LocalTask).removedFiles = [] :=
  C8_staged_cleanup c8Env c8Task "uploads/gdrive_downloads/task_9_big.pdf"
    c8Env c8LocalTask rfl (by decide) (by decide) (by decide) rfl (by decide) rfl rfl rfl

/-! ### Claim C5 -/

/-- C5: an accepted submission over the size threshold with remote storage
available creates a GDrive task and registers exactly two jobs, the download
job first, at `time_to_print − 10min` clamped to `now + 5s` when that instant
is not in the future, then the print job at `time_to_print`. -/
theorem C5_large_file_two_jobs (env : AddEnv) (inp : AddInput)
    (hc : inp.color_mode = "color" ∨ inp.color_mode = "bw")
    (he : inp.uploader_email ≠ "")
    (hs : inp.fileSize > MAX_FILE_SIZE_BYTES)
    (hg : env.gdriveAvailable = true)
    (hu : env.uploadFails = false)
    (hp : env.tsParseOk = true)
    (ht : env.now + 60 < inp.time_to_print_ts) :
    (add_task env inp).createdTask.map Task.storage_type = some StorageType.GDRIVE ∧
    (add_task env inp).jobs =
      [⟨"download_task_" ++ toString env.newTaskId,
        if inp.time_to_print_ts - 600 ≤ env.now then env.now + 5
        else inp.time_to_print_ts - 600,
        JobKind.downloadJob⟩,
       ⟨"print_task_" ++ toString env.newTaskId, inp.time_to_print_ts,
        JobKind.printJob⟩] := by
  have ht2 : ¬(inp.time_to_print_ts ≤ env.now + 60) := not_le.mpr ht
  constructor <;> simp [add_task, addTaskScheduling, hc, he, hs, hg, hu, hp, ht2]

def c5Env : AddEnv :=
  { now := 0, importTime := 0, gdriveAvailable := true, uploadFails := false,
    gdriveFileId := "gid3", tsParseOk := true, newTaskId := 3,
    tempPath := "uploads/temp_3", localPath := "uploads/local_3" }

def c5Inp : AddInput :=
  { filename := "big.pdf", time_to_print_ts := 1000, color_mode := "bw",
    page_size := "A4", uploader_email := "u@example.com",
    fileSize := 6 * 1024 * 1024 }

/-- C5 witness: a concrete 6 MiB submission 1000 s ahead yields a GDrive task
with the download job at 400 s (no clamp) followed by the print job. -/
theorem C5_large_file_two_jobs_witness :
    (add_task c5Env c5Inp).createdTask.map Task.storage_type = some StorageType.GDRIVE ∧
    (add_task c5Env c5Inp).jobs =
      [⟨"download_task_" ++ toString c5Env.newTaskId,
        if c5Inp.time_to_print_ts - 600 ≤ c5Env.now then c5Env.now + 5
        else c5Inp.time_to_print_ts - 600,
        JobKind.downloadJob⟩,
       ⟨"print_task_" ++ toString c5Env.newTaskId, c5Inp.time_to_print_ts,
        JobKind.printJob⟩] :=
  C5_large_file_two_jobs c5Env c5Inp (Or.inr rfl) (by decide) (by decide)
    rfl rfl rfl (by decide)

/-! ### Claim C9 -/

/-- C9: an accepted submission at or under the size threshold creates a LOCAL
task whose file_identifier is the permanent local path the temp copy was
moved to (that file, and only it, remains on local disk), and exactly one job
— the print job — is registered. -/
theorem C9_small_file_local_one_job (env : AddEnv) (inp : AddInput)
    (hc : inp.color_mode = "color" ∨ inp.color_mode = "bw")
    (he : inp.uploader_email ≠ "")
    (hs : inp.fileSize ≤ MAX_FILE_SIZE_BYTES)
    (hp : env.tsParseOk = true)
    (ht : env.now + 60 < inp.time_to_print_ts) :
    (add_task env inp).createdTask.map Task.storage_type = some StorageType.LOCAL ∧
    (add_task env inp).createdTask.map Task.file_identifier = some env.localPath ∧
    (add_task env inp).localFiles = [env.localPath] ∧
    (add_task env inp).jobs =
      [⟨"print_task_" ++ toString env.newTaskId, inp.time_to_print_ts,
        JobKind.printJob⟩] := by
  have hs2 : ¬(inp.fileSize > MAX_FILE_SIZE_BYTES) := not_lt.mpr hs
  have ht2 : ¬(inp.time_to_print_ts ≤ env.now + 60) := not_le.mpr ht
  refine ⟨?_, ?_, ?_, ?_⟩ <;>
    simp [add_task, addTaskScheduling, hc, he, hs2, hp, ht2]

def c9Env : AddEnv :=
  { now := 0, importTime := 0, gdriveAvailable := false, uploadFails := false,
    gdriveFileId := "", tsParseOk := true, newTaskId := 4,
    tempPath := "uploads/temp_4", localPath := "uploads/local_4_small.pdf" }

def c9Inp : AddInput :=
  { filename := "small.pdf", time_to_print_ts := 1000, color_mode := "color",
    page_size := "A4", uploader_email := "u@example.com", fileSize := 1024 }

/-- C9 witness: a concrete 1 KiB submission yields a LOCAL task with its file
in permanent local storage and a single print job. -/
theorem C9_small_file_local_one_job_witness :
    (add_task c9Env c9Inp).createdTask.map Task.storage_type = some StorageType.LOCAL ∧
    (add_task c9Env c9Inp).createdTask.map Task.file_identifier = some c9Env.localPath ∧
    (add_task c9Env c9Inp).localFiles = [c9Env.localPath] ∧
    (add_task c9Env c9Inp).jobs =
      [⟨"print_task_" ++ toString c9Env.newTaskId, c9Inp.time_to_print_ts,
        JobKind.printJob⟩] :=
  C9_small_file_local_one_job c9Env c9Inp (Or.inl rfl) (by decide) (by decide)
    rfl (by decide)

/-! ### Claim C7 -/

def c7Env : AddEnv :=
  { now := 0, importTime := 0, gdriveAvailable := false, uploadFails := false,
    gdriveFileId := "", tsParseOk := true, newTaskId := 5,
    tempPath := "uploads/temp_5", localPath := "uploads/local_5" }

def c7Inp : AddInput :=
  { filename := "d.pdf", time_to_print_ts := 60, color_mode := "bw",
    page_size := "A4", uploader_email := "u@example.com", fileSize := 1024 }

/-- C7 counterexample: a print time exactly 1 minute ahead of the clock
(`now = 0`, `time_to_print_ts = 60`) is "at least 1 minute ahead", yet the
code rejects it (the check is `print_datetime <= now + 1min`) with the 400
validation error and creates no task — so acceptance is not equivalent to
"at least 1 minute ahead". -/
theorem C7_counterexample :
    c7Inp.time_to_print_ts ≥ c7Env.now + 60 ∧
    (add_task c7Env c7Inp).response = Except.error (400, tooNearMsg) ∧
    (add_task c7Env c7Inp).createdTask = none :=
  ⟨by decide, rfl, rfl⟩

/-- C7 (amended): with the other validations passing, a submission is
accepted with respect to time validation iff its print time is strictly more
than 1 minute ahead of the clock; a print time at most 1 minute from now is
rejected with the 400 validation error and creates no task record. -/
theorem C7_time_validation (env : AddEnv) (inp : AddInput)
    (hc : inp.color_mode = "color" ∨ inp.color_mode = "bw")
    (he : inp.uploader_email ≠ "")
    (hs : inp.fileSize ≤ MAX_FILE_SIZE_BYTES)
    (hp : env.tsParseOk = true) :
    ((∃ tid, (add_task env inp).response = Except.ok tid) ↔
      env.now + 60 < inp.time_to_print_ts) ∧
    (inp.time_to_print_ts ≤ env.now + 60 →
      (add_task env inp).response = Except.error (400, tooNearMsg) ∧
      (add_task env inp).createdTask = none) := by
  have hs2 : ¬(inp.fileSize > MAX_FILE_SIZE_BYTES) := not_lt.mpr hs
  by_cases ht : inp.time_to_print_ts ≤ env.now + 60
  · have hx : ¬(env.now + 60 < inp.time_to_print_ts) := not_lt.mpr ht
    constructor
    · simp [add_task, addTaskScheduling, hc, he, hs2, hp, ht, hx]
    · intro _
      constructor <;> simp [add_task, addTaskScheduling, hc, he, hs2, hp, ht]
  · have hx : env.now + 60 < inp.time_to_print_ts := not_le.mp ht
    constructor
    · constructor
      · intro _
        exact hx
      · intro _
        exact ⟨env.newTaskId, by simp [add_task, addTaskScheduling, hc, he, hs2, hp, ht]⟩
    · intro hcon
      exact absurd hcon ht

def c7wEnv : AddEnv :=
  { now := 0, importTime := 0, gdriveAvailable := false, uploadFails := false,
    gdriveFileId := "", tsParseOk := true, newTaskId := 6,
    tempPath := "uploads/temp_6", localPath := "uploads/local_6" }

def c7wInp : AddInput :=
  { filename := "e.pdf", time_to_print_ts := 61, color_mode := "bw",
    page_size := "A4", uploader_email := "u@example.com", fileSize := 1024 }

/-- C7 witness: the amended time-validation theorem at a concrete submission
61 s ahead of `now = 0`. -/
theorem C7_time_validation_witness :
    ((∃ tid, (add_task c7wEnv c7wInp).response = Except.ok tid) ↔
      c7wEnv.now + 60 < c7wInp.time_to_print_ts) ∧
    (c7wInp.time_to_print_ts ≤ c7wEnv.now + 60 →
      (add_task c7wEnv c7wInp).response = Except.error (400, tooNearMsg) ∧
      (add_task c7wEnv c7wInp).createdTask = none) :=
  C7_time_validation c7wEnv c7wInp (Or.inr rfl) (by decide) (by decide) rfl

/-! ### Claim C10 -/

/-- C10: a large-file submission whose remote upload succeeds but which the
timestamp validation then rejects (unparseable or too-near print time) only
ever deletes local copies: the uploaded remote object stays in remote
storage, no local file remains, no task is created, and the response is the
corresponding 400 validation error. -/
theorem C10_orphaned_remote_object (env : AddEnv) (inp : AddInput)
    (hc : inp.color_mode = "color" ∨ inp.color_mode = "bw")
    (he : inp.uploader_email ≠ "")
    (hs : inp.fileSize > MAX_FILE_SIZE_BYTES)
    (hg : env.gdriveAvailable = true)
    (hu : env.uploadFails = false)
    (hrej : env.tsParseOk = false ∨ inp.time_to_print_ts ≤ env.now + 60) :
    (add_task env inp).remoteObjects = [env.gdriveFileId] ∧
    (add_task env inp).localFiles = [] ∧
    (add_task env inp).createdTask = none ∧
    (add_task env inp).response =
      Except.error (400, if env.tsParseOk then tooNearMsg else invalidTsMsg) := by
  rcases hrej with h | h
  · refine ⟨?_, ?_, ?_, ?_⟩ <;> simp [add_task, addTaskScheduling, hc, he, hs, hg, hu, h]
  · by_cases hp : env.tsParseOk = true
    · refine ⟨?_, ?_, ?_, ?_⟩ <;>
        simp [add_task, addTaskScheduling, hc, he, hs, hg, hu, hp, h]
    · have hp2 : env.tsParseOk = false := by
        cases hx : env.tsParseOk
        · rfl
        · exact absurd hx hp
      refine ⟨?_, ?_, ?_, ?_⟩ <;>
        simp [add_task, addTaskScheduling, hc, he, hs, hg, hu, hp2]

def c10Env : AddEnv :=
  { now := 0, importTime := 0, gdriveAvailable := true, uploadFails := false,
    gdriveFileId := "orphan-gid", tsParseOk := true, newTaskId := 11,
    tempPath := "uploads/temp_11", localPath := "uploads/local_11" }

def c10Inp : AddInput :=
  { filename := "big.pdf", time_to_print_ts := 30, color_mode := "bw",
    page_size := "A4", uploader_email := "u@example.com",
    fileSize := 6 * 1024 * 1024 }

/-- C10 witness: a concrete 6 MiB submission with a print time 30 s ahead is
rejected after a successful upload, leaving the remote object orphaned. -/
theorem C10_orphaned_remote_object_witness :
    (add_task c10Env c10Inp).remoteObjects = [c10Env.gdriveFileId] ∧
    (add_task c10Env c10Inp).localFiles = [] ∧
    (add_task c10Env c10Inp).createdTask = none ∧
    (add_task c10Env c10Inp).response =
      Except.error (400, if c10Env.tsParseOk then tooNearMsg else invalidTsMsg) :=
  C10_orphaned_remote_object c10Env c10Inp (Or.inr rfl) (by decide) (by decide)
    rfl rfl (Or.inr (by decide))

/-! ### Claim C6 -/

def c6Env1 : AddEnv :=
  { now := 1000, importTime := 500, gdriveAvailable := false, uploadFails := false,
    gdriveFileId := "", tsParseOk := true, newTaskId := 1,
    tempPath := "uploads/temp_a", localPath := "uploads/local_a.pdf" }

def c6Env2 : AddEnv :=
  { c6Env1 with now := 5000, newTaskId := 2, localPath := "uploads/local_b.pdf" }

def c6Inp1 : AddInput :=
  { filename := "a.pdf", time_to_print_ts := 2000, color_mode := "bw",
    page_size := "A4", uploader_email := "u@example.com", fileSize := 10 }

def c6Inp2 : AddInput :=
  { c6Inp1 with filename := "b.pdf", time_to_print_ts := 6000 }

/-- The store after the two C6 submissions, in insertion order. -/
def c6Tasks : List Task :=
  ((add_task c6Env1 c6Inp1).createdTask).toList ++
    ((add_task c6Env2 c6Inp2).createdTask).toList

/-- C6: the `created_at` column default is evaluated once at import time
(src/db.py line 50 calls `datetime.now(timezone.utc)` at class-definition
time), so two tasks created at clock times 1000 and 5000 both record
`created_at = 500`, the import instant — not their creation moments — and the
listing, which orders by `created_at` descending with ties in rowid
(insertion) order, returns the task submitted first (a.pdf) before the newer
one (b.pdf): not newest-first. -/
theorem C6_created_at_bug :
    c6Tasks.length = 2 ∧
    (∀ t ∈ c6Tasks, t.created_at = 500) ∧
    (list_tasks 0 10 c6Tasks).map Task.original_filename = ["a.pdf", "b.pdf"] := by
  decide

end IotPrinter
